import Mathlib

/-!
Wintun adapter lifecycle (`internal/wintun/wintun_windows.go`).

A shallow embedding of the Go wrapper around the wintun.dll entry points.

* The driver is an arbitrary deterministic environment (`Driver`): every entry
  point invocation is answered with the three values that `syscall.Syscall`
  hands back, `(r1, r2, err)`.
* The Go heap holds the `Adapter` objects; a pointer is the index of an object.
  Next to every object the runtime keeps the finalizer set by
  `runtime.SetFinalizer`.
* Every effect is appended to a trace, so that the number, the order and the
  arguments of entry point invocations can be stated.
-/

namespace Wintun

/-! ## Data model -/

/-- The procedures resolved from wintun.dll (the package level `proc...` variables). -/
inductive Proc
  | WintunCreateAdapter
  | WintunOpenAdapter
  | WintunCloseAdapter
  | WintunDeleteDriver
  | WintunGetAdapterLUID
  | WintunGetRunningDriverVersion
  deriving DecidableEq, Repr

/-- The type `windows.GUID`: the 16 byte layout (32 bit, 16 bit, 16 bit, 8 bytes). -/
structure GUID where
  Data1 : Nat
  Data2 : Nat
  Data3 : Nat
  Data4 : List Nat
  deriving DecidableEq, Repr

/-- One machine word handed to an entry point. A pointer argument is represented by
what it points to: a NUL terminated UTF-16 buffer or a GUID; everything else is a
plain `uintptr`. -/
inductive Arg
  | word (n : Nat)
  | utf16 (buf : List Nat)
  | guid (g : GUID)
  deriving DecidableEq, Repr

/-- One invocation of an entry point: the procedure and the argument words it receives,
in order (the first list element is the first parameter). -/
structure Call where
  proc : Proc
  args : List Arg
  deriving DecidableEq, Repr

/-- The three results of `syscall.Syscall` / `syscall.SyscallN`, declared as
`(r1, r2 uintptr, err Errno)`: `r1` is the return value of the procedure, `r2` the
second result register and `err` the platform error code of the call (the last error).
The functions of the file bind them as `r0, _, e1`, and `CreateAdapter` as
`r0, eid, e1`. -/
structure SyscallResult where
  r1 : Nat
  r2 : Nat
  err : Nat
  deriving DecidableEq, Repr

/-- The driver: given the entry point invocations made so far and the current one,
the results of the current one. -/
abbrev Driver := List Call → Call → SyscallResult

/-- Values of the Go type `error` that this file produces: `syscall.EINVAL`, returned by
the string encoder, and `syscall.Errno` values taken from the third result of a call.
An `Errno` is never nil as an `error`, also when its code is 0. -/
inductive GoError
  | EINVAL
  | Errno (code : Nat)
  deriving DecidableEq, Repr

/-- The struct `Adapter`. -/
structure Adapter where
  handle : Nat
  deriving DecidableEq, Repr

/-- The functions that are registered as finalizers: only `closeAdapter`. -/
inductive Finalizer
  | closeAdapter
  deriving DecidableEq, Repr

/-- A heap cell: an `Adapter` and the finalizer the runtime associates with it. -/
structure Object where
  adapter : Adapter
  finalizer : Option Finalizer
  deriving DecidableEq, Repr

/-- A value of type `*Adapter`: the index of the object in the heap. -/
abbrev Ptr := Nat

/-- The observable effects. -/
inductive Event
  | call (c : Call)
  | setFinalizer (p : Ptr) (f : Option Finalizer)
  deriving DecidableEq, Repr

/-- The state: the heap of adapters and the effects so far, oldest first. -/
structure World where
  heap : List Object
  events : List Event
  deriving DecidableEq, Repr

/-- The empty state. -/
def World.empty : World := ⟨[], []⟩

/-- The entry point invocations among the events. -/
def calls : List Event → List Call
  | [] => []
  | Event.call c :: es => c :: calls es
  | Event.setFinalizer _ _ :: es => calls es

/-- The invocations of one procedure among the events. -/
def callsOf (proc : Proc) (es : List Event) : List Call :=
  (calls es).filter (fun c => c.proc = proc)

/-- The number of invocations of the close entry point. -/
def closeCount (es : List Event) : Nat :=
  (callsOf Proc.WintunCloseAdapter es).length

/-! ## The Go runtime and library functions used by the file -/

/-- The function `syscall.SyscallN(trap, args...)`: calls the procedure with exactly the
given arguments. -/
def SyscallN (drv : Driver) (trap : Proc) (args : List Arg) (w : World) :
    SyscallResult × World :=
  (drv (calls w.events) ⟨trap, args⟩,
    { w with events := w.events ++ [Event.call ⟨trap, args⟩] })

/-- The function `syscall.Syscall(trap, nargs, a1, a2, a3)`: calls the procedure with the
first `nargs` of the three arguments. -/
def Syscall (drv : Driver) (trap : Proc) (nargs : Nat) (a1 a2 a3 : Arg) (w : World) :
    SyscallResult × World :=
  SyscallN drv trap ([a1, a2, a3].take nargs) w

/-- UTF-16 code units of one character. -/
def encodeRune (c : Char) : List Nat :=
  if c.toNat < 0x10000 then [c.toNat]
  else [0xD800 + (c.toNat - 0x10000) / 0x400, 0xDC00 + (c.toNat - 0x10000) % 0x400]

/-- UTF-16 code units of a list of characters. -/
def encodeUTF16 : List Char → List Nat
  | [] => []
  | c :: cs => encodeRune c ++ encodeUTF16 cs

/-- Whether the string contains a NUL. -/
def hasNUL (s : String) : Bool :=
  s.data.any (fun c => c.toNat == 0)

/-- The function `windows.UTF16FromString` of the library golang.org/x/sys/windows, after
its documentation: "returns the UTF-16 encoding of the UTF-8 string s, with a terminating
NUL added. If s contains a NUL byte at any location, it returns (nil, syscall.EINVAL)."
It is the only failure of the encoder: the empty string encodes to the lone terminator.
A Go string is taken to be valid UTF-8, that is a list of characters. -/
def UTF16FromString (s : String) : Except GoError (List Nat) :=
  if hasNUL s then Except.error GoError.EINVAL
  else Except.ok (encodeUTF16 s.data ++ [0])

/-- The function `windows.UTF16PtrFromString`: a pointer to the buffer of
`UTF16FromString`, here the buffer itself. -/
def UTF16PtrFromString (s : String) : Except GoError (List Nat) :=
  match UTF16FromString s with
  | Except.error e => Except.error e
  | Except.ok a => Except.ok a

/-- The conversion `uintptr(unsafe.Pointer(requestedGUID))`: zero for nil. -/
def guidPtr : Option GUID → Arg
  | none => Arg.word 0
  | some g => Arg.guid g

/-- The allocation `&Adapter{...}`: a fresh object, without finalizer. -/
def alloc (a : Adapter) (w : World) : Ptr × World :=
  (w.heap.length, { w with heap := w.heap ++ [⟨a, none⟩] })

/-- The association kept by the runtime, replaced at one object. -/
def setFin (p : Ptr) (f : Option Finalizer) (heap : List Object) : List Object :=
  match heap[p]? with
  | some o => heap.set p { o with finalizer := f }
  | none => heap

/-- The function `runtime.SetFinalizer(obj, finalizer)`: sets the finalizer associated
with the object, or clears it for nil. Every caller below passes an allocated object. -/
def SetFinalizer (p : Ptr) (f : Option Finalizer) (w : World) : World :=
  { heap := setFin p f w.heap, events := w.events ++ [Event.setFinalizer p f] }

/-! ## The functions of `wintun_windows.go` -/

/-- The function `closeAdapter`: `syscall.SyscallN` with the four words
`1, wintun.handle, 0, 0`. `none` for a pointer that is no object. -/
def closeAdapter (drv : Driver) (wintun : Ptr) (w : World) : Option World :=
  match w.heap[wintun]? with
  | none => none
  | some o =>
    some (SyscallN drv Proc.WintunCloseAdapter
      [Arg.word 1, Arg.word o.adapter.handle, Arg.word 0, Arg.word 0] w).2

/-- The function `OpenAdapter`. The result is the pair `(wintun, err)`. -/
def OpenAdapter (drv : Driver) (name : String) (w : World) :
    (Option Ptr × Option GoError) × World :=
  match UTF16PtrFromString name with
  | Except.error err => ((none, some err), w)
  | Except.ok name16 =>
    let res := Syscall drv Proc.WintunOpenAdapter 1 (Arg.utf16 name16) (Arg.word 0) (Arg.word 0) w
    let r0 := res.1.r1
    let e1 := res.1.err
    if r0 = 0 then ((none, some (GoError.Errno e1)), res.2)
    else
      let wintun := alloc ⟨r0⟩ res.2
      ((some wintun.1, none), SetFinalizer wintun.1 (some Finalizer.closeAdapter) wintun.2)

/-- The function `CreateAdapter`. The result is the pair `(wintun, err)`. -/
def CreateAdapter (drv : Driver) (name : String) (tunnelType : String)
    (requestedGUID : Option GUID) (w : World) : (Option Ptr × Option GoError) × World :=
  match UTF16PtrFromString name with
  | Except.error err => ((none, some err), w)
  | Except.ok name16 =>
    match UTF16PtrFromString tunnelType with
    | Except.error err => ((none, some err), w)
    | Except.ok tunnelType16 =>
      let res := Syscall drv Proc.WintunCreateAdapter 3 (Arg.utf16 name16)
        (Arg.utf16 tunnelType16) (guidPtr requestedGUID) w
      let r0 := res.1.r1
      let eid := res.1.r2
      let e1 := res.1.err
      if r0 = 0 then
        if eid = 183 then OpenAdapter drv name res.2
        else ((none, some (GoError.Errno e1)), res.2)
      else
        let wintun := alloc ⟨r0⟩ res.2
        ((some wintun.1, none), SetFinalizer wintun.1 (some Finalizer.closeAdapter) wintun.2)

/-- The method `Adapter.Close`. `none` for a pointer that is no object (there Go
panics); otherwise the returned `err` and the state. -/
def Close (drv : Driver) (wintun : Ptr) (w : World) : Option (Option GoError × World) :=
  match w.heap[wintun]? with
  | none => none
  | some o =>
    let w1 := SetFinalizer wintun none w
    let res := Syscall drv Proc.WintunCloseAdapter 1 (Arg.word o.adapter.handle)
      (Arg.word 0) (Arg.word 0) w1
    let r1 := res.1.r1
    let e1 := res.1.err
    if r1 = 0 then some (some (GoError.Errno e1), res.2) else some (none, res.2)

/-- The function `Uninstall`. -/
def Uninstall (drv : Driver) (w : World) : Option GoError × World :=
  let res := Syscall drv Proc.WintunDeleteDriver 0 (Arg.word 0) (Arg.word 0) (Arg.word 0) w
  let r1 := res.1.r1
  let e1 := res.1.err
  if r1 = 0 then (some (GoError.Errno e1), res.2) else (none, res.2)

/-- The function `RunningVersion`. The result is the pair `(version, err)`; the
conversion `uint32(r0)` keeps the low 32 bits. -/
def RunningVersion (drv : Driver) (w : World) : (Nat × Option GoError) × World :=
  let res := Syscall drv Proc.WintunGetRunningDriverVersion 0 (Arg.word 0) (Arg.word 0)
    (Arg.word 0) w
  let r0 := res.1.r1
  let e1 := res.1.err
  let version := r0 % 2 ^ 32
  if version = 0 then ((version, some (GoError.Errno e1)), res.2)
  else ((version, none), res.2)

/-! ## Garbage collection and lifecycles -/

/-- The garbage collector finds the object unreachable. With an associated finalizer it
clears the association and runs the finalizer on the object; without one nothing is run.
`none` for a pointer that is no object. -/
def reclaim (drv : Driver) (p : Ptr) (w : World) : Option World :=
  match w.heap[p]? with
  | none => none
  | some o =>
    match o.finalizer with
    | none => some w
    | some Finalizer.closeAdapter =>
      closeAdapter drv p { w with heap := setFin p none w.heap }

/-- The steps of a lifecycle. -/
inductive Step
  | create (name : String) (tunnelType : String) (requestedGUID : Option GUID)
  | openAdapter (name : String)
  | close (p : Ptr)
  | reclaim (p : Ptr)
  deriving DecidableEq, Repr

/-- One step. `none` when the step uses a pointer that is no object. -/
def step (drv : Driver) : Step → World → Option World
  | Step.create name tunnelType requestedGUID, w =>
    some (CreateAdapter drv name tunnelType requestedGUID w).2
  | Step.openAdapter name, w => some (OpenAdapter drv name w).2
  | Step.close p, w => (Close drv p w).map Prod.snd
  | Step.reclaim p, w => reclaim drv p w

/-- A sequence of steps. -/
def run (drv : Driver) : List Step → World → Option World
  | [], w => some w
  | s :: ss, w => (step drv s w).bind (run drv ss)

/-- The invocation of the open entry point with an encoded name. -/
def openCall (name16 : List Nat) : Call :=
  ⟨Proc.WintunOpenAdapter, [Arg.utf16 name16]⟩

/-- The invocation of the create entry point with its three arguments. -/
def createCall (name16 tunnelType16 : List Nat) (requestedGUID : Option GUID) : Call :=
  ⟨Proc.WintunCreateAdapter, [Arg.utf16 name16, Arg.utf16 tunnelType16, guidPtr requestedGUID]⟩

/-- The invocation of the close entry point with the handle as its single argument. -/
def closeCall (handle : Nat) : Call :=
  ⟨Proc.WintunCloseAdapter, [Arg.word handle]⟩

/-- The invocation of the get-running-driver-version entry point. -/
def versionCall : Call :=
  ⟨Proc.WintunGetRunningDriverVersion, []⟩

/-- A name with an embedded NUL. -/
def nulName : String := String.mk ['a', Char.ofNat 0, 'b']

/-! ## Concrete drivers -/

/-- A driver in which every call succeeds: handle 7, version 7. -/
def drvOk : Driver := fun _ _ => ⟨7, 0, 0⟩

/-- A driver whose create call fails with platform error code 183 (already exists) and
whose open call returns handle 7. -/
def drvExists : Driver := fun _ c =>
  match c.proc with
  | Proc.WintunCreateAdapter => ⟨0, 0, 183⟩
  | _ => ⟨7, 0, 0⟩

/-- A driver whose create call fails with platform error code 5 (access denied) while the
second result register holds 183, and whose open call returns handle 7. -/
def drvDenied : Driver := fun _ c =>
  match c.proc with
  | Proc.WintunCreateAdapter => ⟨0, 183, 5⟩
  | _ => ⟨7, 0, 0⟩

/-- A driver whose first close call succeeds and whose later close calls fail with
platform error code 6 (invalid handle). -/
def drvCloseOnce : Driver := fun hist c =>
  match c.proc with
  | Proc.WintunCloseAdapter =>
    if (hist.filter (fun d => d.proc = Proc.WintunCloseAdapter)).length = 0 then ⟨1, 0, 0⟩
    else ⟨0, 0, 6⟩
  | _ => ⟨7, 0, 0⟩


/-! ## Basic facts -/

theorem calls_append (a b : List Event) : calls (a ++ b) = calls a ++ calls b := by
  induction a with
  | nil => rfl
  | cons e es ih =>
    cases e with
    | call c => simp [calls, ih]
    | setFinalizer p f => simp [calls, ih]

theorem calls_setFinalizer (p : Ptr) (f : Option Finalizer) :
    calls [Event.setFinalizer p f] = [] := rfl

theorem UTF16PtrFromString_hasNUL (s : String) (h : hasNUL s = true) :
    UTF16PtrFromString s = Except.error GoError.EINVAL := by
  simp [UTF16PtrFromString, UTF16FromString, h]

theorem UTF16PtrFromString_noNUL (s : String) (h : hasNUL s = false) :
    UTF16PtrFromString s = Except.ok (encodeUTF16 s.data ++ [0]) := by
  simp [UTF16PtrFromString, UTF16FromString, h]

theorem UTF16PtrFromString_empty : UTF16PtrFromString "" = Except.ok [0] := by
  rfl

theorem setFin_append_length (heap : List Object) (o : Object) (f : Option Finalizer) :
    setFin heap.length f (heap ++ [o]) = heap ++ [{ o with finalizer := f }] := by
  simp [setFin]

theorem setFin_getElem?_same (heap : List Object) (p : Ptr) (o : Object)
    (f : Option Finalizer) (h : heap[p]? = some o) :
    (setFin p f heap)[p]? = some { o with finalizer := f } := by
  have hp : p < heap.length := by
    rcases List.getElem?_eq_some.1 h with ⟨hp, _⟩
    exact hp
  simp [setFin, h, hp]

theorem setFin_getElem?_ne (heap : List Object) (p q : Ptr) (f : Option Finalizer)
    (hne : q ≠ p) : (setFin q f heap)[p]? = heap[p]? := by
  unfold setFin
  cases hq : heap[q]? with
  | none => rfl
  | some o => simp [List.getElem?_set_ne hne]

/-- The whole behaviour of `OpenAdapter` on a name that encodes. -/
theorem OpenAdapter_of_ok (drv : Driver) (name : String) (w : World) (name16 : List Nat)
    (h : UTF16PtrFromString name = Except.ok name16) :
    OpenAdapter drv name w =
      if (drv (calls w.events) (openCall name16)).r1 = 0 then
        ((none, some (GoError.Errno (drv (calls w.events) (openCall name16)).err)),
          ⟨w.heap, w.events ++ [Event.call (openCall name16)]⟩)
      else
        ((some w.heap.length, none),
          ⟨w.heap ++ [⟨⟨(drv (calls w.events) (openCall name16)).r1⟩,
              some Finalizer.closeAdapter⟩],
            w.events ++ [Event.call (openCall name16),
              Event.setFinalizer w.heap.length (some Finalizer.closeAdapter)]⟩) := by
  unfold OpenAdapter
  rw [h]
  simp only [Syscall, SyscallN, List.take, openCall, alloc, SetFinalizer]
  split
  · rfl
  · simp [setFin_append_length]

/-- The whole behaviour of `CreateAdapter` on strings that encode. -/
theorem CreateAdapter_of_ok (drv : Driver) (name tunnelType : String)
    (requestedGUID : Option GUID) (w : World) (name16 tunnelType16 : List Nat)
    (hn : UTF16PtrFromString name = Except.ok name16)
    (ht : UTF16PtrFromString tunnelType = Except.ok tunnelType16) :
    CreateAdapter drv name tunnelType requestedGUID w =
      if (drv (calls w.events) (createCall name16 tunnelType16 requestedGUID)).r1 = 0 then
        if (drv (calls w.events) (createCall name16 tunnelType16 requestedGUID)).r2 = 183 then
          OpenAdapter drv name
            ⟨w.heap, w.events ++ [Event.call (createCall name16 tunnelType16 requestedGUID)]⟩
        else
          ((none, some (GoError.Errno
              (drv (calls w.events) (createCall name16 tunnelType16 requestedGUID)).err)),
            ⟨w.heap, w.events ++ [Event.call (createCall name16 tunnelType16 requestedGUID)]⟩)
      else
        ((some w.heap.length, none),
          ⟨w.heap ++ [⟨⟨(drv (calls w.events)
              (createCall name16 tunnelType16 requestedGUID)).r1⟩, some Finalizer.closeAdapter⟩],
            w.events ++ [Event.call (createCall name16 tunnelType16 requestedGUID),
              Event.setFinalizer w.heap.length (some Finalizer.closeAdapter)]⟩) := by
  unfold CreateAdapter
  rw [hn, ht]
  simp only [Syscall, SyscallN, List.take, createCall, alloc, SetFinalizer]
  split
  · rfl
  · simp [setFin_append_length]

/-- The whole behaviour of `Close` on an allocated adapter. -/
theorem Close_of_obj (drv : Driver) (p : Ptr) (w : World) (o : Object)
    (h : w.heap[p]? = some o) :
    Close drv p w =
      some (if (drv (calls w.events) (closeCall o.adapter.handle)).r1 = 0 then
          some (GoError.Errno (drv (calls w.events) (closeCall o.adapter.handle)).err)
        else none,
        ⟨setFin p none w.heap,
          w.events ++ [Event.setFinalizer p none, Event.call (closeCall o.adapter.handle)]⟩) := by
  unfold Close
  rw [h]
  simp only [Syscall, SyscallN, List.take, closeCall, SetFinalizer, calls_append,
    calls_setFinalizer, List.append_nil]
  split <;> simp

/-! ## Opening an adapter -/

/-- C5: for a name that encodes, `OpenAdapter` invokes the open entry point exactly once,
with the encoded name, and no other entry point. If the entry point returns zero, the
result is no adapter and the error with the platform error code of that call, and no
object is allocated; if it returns a handle that is not zero, the result is no error and a
fresh adapter with that handle and with `closeAdapter` armed as its finalizer. -/
theorem OpenAdapter_result (drv : Driver) (name : String) (w : World) (name16 : List Nat)
    (h : UTF16PtrFromString name = Except.ok name16) :
    calls (OpenAdapter drv name w).2.events = calls w.events ++ [openCall name16] ∧
    ((drv (calls w.events) (openCall name16)).r1 = 0 →
      (OpenAdapter drv name w).1 =
          (none, some (GoError.Errno (drv (calls w.events) (openCall name16)).err)) ∧
        (OpenAdapter drv name w).2.heap = w.heap) ∧
    ((drv (calls w.events) (openCall name16)).r1 ≠ 0 →
      ∃ p, (OpenAdapter drv name w).1 = (some p, none) ∧
        w.heap[p]? = none ∧
        (OpenAdapter drv name w).2.heap[p]? =
          some ⟨⟨(drv (calls w.events) (openCall name16)).r1⟩, some Finalizer.closeAdapter⟩) := by
  rw [OpenAdapter_of_ok drv name w name16 h]
  refine ⟨?_, ?_, ?_⟩
  · split <;> simp [calls_append, calls]
  · intro h0
    simp [h0]
  · intro h0
    refine ⟨w.heap.length, ?_, ?_, ?_⟩ <;> simp [h0]

/-- Witness of C5 in the success case: opening "wg0" on a driver that answers 7. -/
theorem OpenAdapter_result_witness :
    ∃ p, (OpenAdapter drvOk "wg0" World.empty).1 = (some p, none) ∧
      World.empty.heap[p]? = none ∧
      (OpenAdapter drvOk "wg0" World.empty).2.heap[p]? =
        some ⟨⟨(drvOk (calls World.empty.events) (openCall [119, 103, 48, 0])).r1⟩,
          some Finalizer.closeAdapter⟩ :=
  (OpenAdapter_result drvOk "wg0" World.empty [119, 103, 48, 0] (by rfl)).2.2 (by decide)

/-! ## Closing an adapter -/

/-- C3: for an allocated adapter, `Close` first clears the finalizer and then invokes the
close entry point, once, with the handle as its single argument (the two events are
appended in this order and nothing else happens). It returns the error with the
platform error code exactly when the entry point returns zero and no error otherwise, and
the finalizer is cleared in both cases. -/
theorem Close_result (drv : Driver) (p : Ptr) (w : World) (o : Object)
    (h : w.heap[p]? = some o) :
    ∃ err w1, Close drv p w = some (err, w1) ∧
      w1.events = w.events ++
        [Event.setFinalizer p none, Event.call (closeCall o.adapter.handle)] ∧
      w1.heap[p]? = some ⟨o.adapter, none⟩ ∧
      (err = some (GoError.Errno (drv (calls w.events) (closeCall o.adapter.handle)).err) ↔
        (drv (calls w.events) (closeCall o.adapter.handle)).r1 = 0) ∧
      (err = none ↔ (drv (calls w.events) (closeCall o.adapter.handle)).r1 ≠ 0) := by
  refine ⟨_, _, Close_of_obj drv p w o h, rfl, ?_, ?_, ?_⟩
  · exact setFin_getElem?_same w.heap p o none h
  · split <;> simp_all
  · split <;> simp_all

/-- Witness of C3: closing the adapter opened as "wg0". -/
theorem Close_result_witness :
    ∃ err w1, Close drvOk 0 (OpenAdapter drvOk "wg0" World.empty).2 = some (err, w1) ∧
      w1.events = (OpenAdapter drvOk "wg0" World.empty).2.events ++
        [Event.setFinalizer 0 none, Event.call (closeCall 7)] ∧
      w1.heap[0]? = some ⟨⟨7⟩, none⟩ ∧
      (err = some (GoError.Errno
          (drvOk (calls (OpenAdapter drvOk "wg0" World.empty).2.events) (closeCall 7)).err) ↔
        (drvOk (calls (OpenAdapter drvOk "wg0" World.empty).2.events) (closeCall 7)).r1 = 0) ∧
      (err = none ↔
        (drvOk (calls (OpenAdapter drvOk "wg0" World.empty).2.events) (closeCall 7)).r1 ≠ 0) :=
  Close_result drvOk 0 (OpenAdapter drvOk "wg0" World.empty).2
    ⟨⟨7⟩, some Finalizer.closeAdapter⟩ (by decide)

/-! ## Strings that do not encode -/

/-- C7: a string with an embedded NUL is the one that does not encode. With such a `name`
or such a `tunnelType`, `CreateAdapter` returns no adapter and the encoding error and
leaves the state as it was: no entry point is invoked; the same holds for `OpenAdapter`
with such a `name`. -/
theorem encoding_error_before_any_call (drv : Driver) (name tunnelType : String)
    (requestedGUID : Option GUID) (w : World) :
    ((∃ e, UTF16PtrFromString name = Except.error e) ↔ hasNUL name = true) ∧
    (hasNUL name = true ∨ hasNUL tunnelType = true →
      CreateAdapter drv name tunnelType requestedGUID w = ((none, some GoError.EINVAL), w)) ∧
    (hasNUL name = true → OpenAdapter drv name w = ((none, some GoError.EINVAL), w)) := by
  refine ⟨?_, ?_, ?_⟩
  · cases hn : hasNUL name
    · simp [UTF16PtrFromString_noNUL name hn]
    · simp [UTF16PtrFromString_hasNUL name hn]
  · intro hor
    cases hn : hasNUL name
    · have ht : hasNUL tunnelType = true := by
        rcases hor with h | h
        · rw [hn] at h
          cases h
        · exact h
      unfold CreateAdapter
      rw [UTF16PtrFromString_noNUL name hn, UTF16PtrFromString_hasNUL tunnelType ht]
    · unfold CreateAdapter
      rw [UTF16PtrFromString_hasNUL name hn]
  · intro hn
    unfold OpenAdapter
    rw [UTF16PtrFromString_hasNUL name hn]

/-- Witness of C7: a tunnel type with an embedded NUL. -/
theorem encoding_error_before_any_call_witness :
    CreateAdapter drvOk "wg0" nulName none World.empty =
      ((none, some GoError.EINVAL), World.empty) :=
  (encoding_error_before_any_call drvOk "wg0" nulName none World.empty).2.1
    (Or.inr (by decide))

/-! ## The version of the running driver -/

/-- C9: for every raw result `r1` of the get-running-driver-version entry point,
`RunningVersion` returns the version `r1 % 2 ^ 32`; it returns an error, the one with the
platform error code of the call, exactly when that version is zero, and a version that is
not zero is returned with no error. The entry point is invoked once, without arguments. -/
theorem RunningVersion_result (drv : Driver) (w : World) :
    (RunningVersion drv w).1.1 = (drv (calls w.events) versionCall).r1 % 2 ^ 32 ∧
    ((RunningVersion drv w).1.2 = some (GoError.Errno (drv (calls w.events) versionCall).err) ↔
      (RunningVersion drv w).1.1 = 0) ∧
    ((RunningVersion drv w).1.2 = none ↔ (RunningVersion drv w).1.1 ≠ 0) ∧
    (RunningVersion drv w).2 = ⟨w.heap, w.events ++ [Event.call versionCall]⟩ := by
  simp only [RunningVersion, Syscall, SyscallN, List.take, versionCall]
  split <;> simp_all

/-! ## Explicit and automatic release -/

theorem setFin_none_keeps (heap : List Object) (p q : Ptr) (a : Adapter)
    (h : heap[p]? = some ⟨a, none⟩) : (setFin q none heap)[p]? = some ⟨a, none⟩ := by
  by_cases hq : q = p
  · subst hq
    exact setFin_getElem?_same heap q ⟨a, none⟩ none h
  · rw [setFin_getElem?_ne heap p q none hq]
    exact h

theorem append_keeps (heap l : List Object) (p : Ptr) (o : Object)
    (h : heap[p]? = some o) : (heap ++ l)[p]? = some o := by
  have hp : p < heap.length := by
    rcases List.getElem?_eq_some.1 h with ⟨hp, _⟩
    exact hp
  rw [List.getElem?_append_left hp]
  exact h

theorem OpenAdapter_keeps (drv : Driver) (name : String) (w : World) (p : Ptr) (o : Object)
    (h : w.heap[p]? = some o) : (OpenAdapter drv name w).2.heap[p]? = some o := by
  cases hn : UTF16PtrFromString name with
  | error e =>
    unfold OpenAdapter
    rw [hn]
    exact h
  | ok name16 =>
    rw [OpenAdapter_of_ok drv name w name16 hn]
    split
    · exact h
    · exact append_keeps w.heap _ p o h

theorem CreateAdapter_keeps (drv : Driver) (name tunnelType : String)
    (requestedGUID : Option GUID) (w : World) (p : Ptr) (o : Object)
    (h : w.heap[p]? = some o) :
    (CreateAdapter drv name tunnelType requestedGUID w).2.heap[p]? = some o := by
  cases hn : UTF16PtrFromString name with
  | error e =>
    unfold CreateAdapter
    rw [hn]
    exact h
  | ok name16 =>
    cases ht : UTF16PtrFromString tunnelType with
    | error e =>
      unfold CreateAdapter
      rw [hn, ht]
      exact h
    | ok tunnelType16 =>
      rw [CreateAdapter_of_ok drv name tunnelType requestedGUID w name16 tunnelType16 hn ht]
      split
      · split
        · exact OpenAdapter_keeps drv name _ p o h
        · exact h
      · exact append_keeps w.heap _ p o h

/-- What the collector does with an adapter whose finalizer is armed: the association is
cleared and `closeAdapter` invokes the close entry point once, with the four words
`1, handle, 0, 0`. -/
theorem reclaim_armed (drv : Driver) (p : Ptr) (w : World) (a : Adapter)
    (h : w.heap[p]? = some ⟨a, some Finalizer.closeAdapter⟩) :
    reclaim drv p w = some ⟨setFin p none w.heap, w.events ++
      [Event.call ⟨Proc.WintunCloseAdapter,
        [Arg.word 1, Arg.word a.handle, Arg.word 0, Arg.word 0]⟩]⟩ := by
  unfold reclaim
  rw [h]
  simp only [closeAdapter, SyscallN]
  rw [setFin_getElem?_same w.heap p _ none h]

/-- What the collector does with an adapter whose finalizer is cleared: nothing. -/
theorem reclaim_disarmed (drv : Driver) (p : Ptr) (w : World) (a : Adapter)
    (h : w.heap[p]? = some ⟨a, none⟩) : reclaim drv p w = some w := by
  unfold reclaim
  rw [h]

theorem reclaim_keeps (drv : Driver) (p q : Ptr) (w w1 : World) (a : Adapter)
    (h : w.heap[p]? = some ⟨a, none⟩) (hr : reclaim drv q w = some w1) :
    w1.heap[p]? = some ⟨a, none⟩ := by
  cases hq : w.heap[q]? with
  | none =>
    simp [reclaim, hq] at hr
  | some o =>
    cases hf : o.finalizer with
    | none =>
      simp only [reclaim, hq, hf, Option.some.injEq] at hr
      rw [← hr]
      exact h
    | some f =>
      cases f
      simp only [reclaim, hq, hf, closeAdapter, SyscallN,
        setFin_getElem?_same w.heap q o none hq, Option.some.injEq] at hr
      rw [← hr]
      exact setFin_none_keeps w.heap p q a h

theorem Close_keeps (drv : Driver) (p q : Ptr) (w w1 : World) (a : Adapter)
    (err : Option GoError) (h : w.heap[p]? = some ⟨a, none⟩)
    (hc : Close drv q w = some (err, w1)) : w1.heap[p]? = some ⟨a, none⟩ := by
  cases hq : w.heap[q]? with
  | none =>
    unfold Close at hc
    rw [hq] at hc
    cases hc
  | some o =>
    rw [Close_of_obj drv q w o hq] at hc
    cases hc
    exact setFin_none_keeps w.heap p q a h

theorem step_keeps (drv : Driver) (s : Step) (p : Ptr) (w w1 : World) (a : Adapter)
    (h : w.heap[p]? = some ⟨a, none⟩) (hs : step drv s w = some w1) :
    w1.heap[p]? = some ⟨a, none⟩ := by
  cases s with
  | create name tunnelType requestedGUID =>
    simp only [step, Option.some.injEq] at hs
    rw [← hs]
    exact CreateAdapter_keeps drv name tunnelType requestedGUID w p _ h
  | openAdapter name =>
    simp only [step, Option.some.injEq] at hs
    rw [← hs]
    exact OpenAdapter_keeps drv name w p _ h
  | close q =>
    simp only [step] at hs
    cases hc : Close drv q w with
    | none =>
      rw [hc] at hs
      cases hs
    | some r =>
      rw [hc] at hs
      simp only [Option.map_some', Option.some.injEq] at hs
      rw [← hs]
      exact Close_keeps drv p q w r.2 a r.1 h hc
  | reclaim q =>
    exact reclaim_keeps drv p q w w1 a h hs

theorem run_keeps (drv : Driver) (steps : List Step) (p : Ptr) (a : Adapter) :
    ∀ w w1 : World, w.heap[p]? = some ⟨a, none⟩ → run drv steps w = some w1 →
      w1.heap[p]? = some ⟨a, none⟩ := by
  induction steps with
  | nil =>
    intro w w1 h hr
    simp only [run, Option.some.injEq] at hr
    rw [← hr]
    exact h
  | cons s ss ih =>
    intro w w1 h hr
    simp only [run] at hr
    cases hs : step drv s w with
    | none =>
      rw [hs] at hr
      cases hr
    | some w2 =>
      rw [hs] at hr
      exact ih w2 w1 (step_keeps drv s p w w2 a h hs) hr

theorem closeCount_append_close (es : List Event) (p : Ptr) (handle : Nat) :
    closeCount (es ++ [Event.setFinalizer p none, Event.call (closeCall handle)]) =
      closeCount es + 1 := by
  simp [closeCount, callsOf, calls_append, calls, closeCall]

/-- C4: explicit and automatic release exclude each other. After `Close` on an allocated
adapter the finalizer is cleared, so a reclamation of this adapter runs nothing and
leaves the state unchanged: right after the `Close`, and after every further sequence of
create, open, close and reclamation steps. The lifecycle of one explicit `Close`
followed by the reclamation of the adapter invokes the close entry point exactly once. -/
theorem Close_excludes_reclaim (drv : Driver) (p : Ptr) (w : World) (o : Object)
    (h : w.heap[p]? = some o) :
    ∃ err w1, Close drv p w = some (err, w1) ∧
      reclaim drv p w1 = some w1 ∧
      (∀ steps w2, run drv steps w1 = some w2 → reclaim drv p w2 = some w2) ∧
      ∃ w3, run drv [Step.close p, Step.reclaim p] w = some w3 ∧
        closeCount w3.events = closeCount w.events + 1 := by
  have hc := Close_of_obj drv p w o h
  have hd : (setFin p none w.heap)[p]? = some ⟨o.adapter, none⟩ :=
    setFin_getElem?_same w.heap p o none h
  refine ⟨_, _, hc, ?_, ?_, ?_⟩
  · exact reclaim_disarmed drv p _ o.adapter hd
  · intro steps w2 hr
    exact reclaim_disarmed drv p w2 o.adapter (run_keeps drv steps p o.adapter _ w2 hd hr)
  · refine ⟨⟨setFin p none w.heap, w.events ++
      [Event.setFinalizer p none, Event.call (closeCall o.adapter.handle)]⟩, ?_, ?_⟩
    · simp only [run, step, hc, Option.map_some', Option.some_bind]
      rw [reclaim_disarmed drv p _ o.adapter hd]
      rfl
    · exact closeCount_append_close w.events p o.adapter.handle

/-- Witness of C4: the adapter opened as "wg0" is closed and then reclaimed. -/
theorem Close_excludes_reclaim_witness :
    ∃ err w1, Close drvOk 0 (OpenAdapter drvOk "wg0" World.empty).2 = some (err, w1) ∧
      reclaim drvOk 0 w1 = some w1 ∧
      (∀ steps w2, run drvOk steps w1 = some w2 → reclaim drvOk 0 w2 = some w2) ∧
      ∃ w3, run drvOk [Step.close 0, Step.reclaim 0]
          (OpenAdapter drvOk "wg0" World.empty).2 = some w3 ∧
        closeCount w3.events = closeCount (OpenAdapter drvOk "wg0" World.empty).2.events + 1 :=
  Close_excludes_reclaim drvOk 0 (OpenAdapter drvOk "wg0" World.empty).2
    ⟨⟨7⟩, some Finalizer.closeAdapter⟩ (by decide)

/-! ## Automatic release -/

/-- C2, evaluated: the adapter opened as "wg0" gets handle 7 and is never closed; when the
collector reclaims it, `closeAdapter` invokes the close entry point exactly once, but with
the four words `1, 7, 0, 0`: the first parameter of the entry point, its handle, receives
1, and the handle 7 is passed in the second position. -/
theorem finalizer_passes_one_as_handle :
    (OpenAdapter drvOk "wg0" World.empty).1 = (some 0, none) ∧
    (run drvOk [Step.openAdapter "wg0", Step.reclaim 0] World.empty).map
        (fun w => (w.heap, callsOf Proc.WintunCloseAdapter w.events)) =
      some ([⟨⟨7⟩, none⟩],
        [⟨Proc.WintunCloseAdapter, [Arg.word 1, Arg.word 7, Arg.word 0, Arg.word 0]⟩]) ∧
    (⟨Proc.WintunCloseAdapter, [Arg.word 1, Arg.word 7, Arg.word 0, Arg.word 0]⟩ : Call) ≠
      closeCall 7 := by
  decide

/-! ## Name collision in `CreateAdapter` -/

/-- C1, evaluated: the create entry point returns a zero handle and the platform error
code of the call is 183, while the second result register is 0. `CreateAdapter` compares
the second result with 183, not the error code: it returns the error 183 of the create
call and never invokes the open entry point, although `OpenAdapter` for the same name, in
the state after the create call, returns an adapter. -/
theorem CreateAdapter_propagates_collision_code :
    drvExists [] (createCall [119, 103, 48, 0] [87, 105, 110, 116, 117, 110, 0] none) =
      ⟨0, 0, 183⟩ ∧
    CreateAdapter drvExists "wg0" "Wintun" none World.empty =
      ((none, some (GoError.Errno 183)),
        ⟨[], [Event.call
          (createCall [119, 103, 48, 0] [87, 105, 110, 116, 117, 110, 0] none)]⟩) ∧
    (OpenAdapter drvExists "wg0"
        ⟨[], [Event.call
          (createCall [119, 103, 48, 0] [87, 105, 110, 116, 117, 110, 0] none)]⟩).1 =
      (some 0, none) := by
  decide

/-- C6, evaluated: the create entry point returns a zero handle and the platform error
code of the call is 5 (access denied, not a name collision), while the second result
register is 183. `CreateAdapter` takes the fallback: it invokes the open entry point and
returns the adapter that `OpenAdapter` returns, and the error 5 is lost. -/
theorem CreateAdapter_opens_on_other_failure :
    drvDenied [] (createCall [119, 103, 48, 0] [87, 105, 110, 116, 117, 110, 0] none) =
      ⟨0, 183, 5⟩ ∧
    (CreateAdapter drvDenied "wg0" "Wintun" none World.empty).1 = (some 0, none) ∧
    calls (CreateAdapter drvDenied "wg0" "Wintun" none World.empty).2.events =
      [createCall [119, 103, 48, 0] [87, 105, 110, 116, 117, 110, 0] none,
        openCall [119, 103, 48, 0]] := by
  decide

/-! ## Empty strings -/

theorem CreateAdapter_calls (drv : Driver) (name tunnelType : String)
    (requestedGUID : Option GUID) (w : World) (name16 tunnelType16 : List Nat)
    (hn : UTF16PtrFromString name = Except.ok name16)
    (ht : UTF16PtrFromString tunnelType = Except.ok tunnelType16) :
    ∃ rest, calls (CreateAdapter drv name tunnelType requestedGUID w).2.events =
      calls w.events ++ createCall name16 tunnelType16 requestedGUID :: rest := by
  rw [CreateAdapter_of_ok drv name tunnelType requestedGUID w name16 tunnelType16 hn ht]
  split
  · split
    · refine ⟨[openCall name16], ?_⟩
      rw [OpenAdapter_of_ok drv name _ name16 hn]
      split <;> simp [calls_append, calls]
    · exact ⟨[], by simp [calls_append, calls]⟩
  · exact ⟨[], by simp [calls_append, calls]⟩

/-- C8, refuted: with the empty name, `OpenAdapter` invokes the open entry point (with the
buffer that holds only the terminator) and returns an adapter and no error, and so does
`CreateAdapter` with the empty name and the empty tunnel type. -/
theorem empty_string_not_rejected :
    (OpenAdapter drvOk "" World.empty).1 = (some 0, none) ∧
    calls (OpenAdapter drvOk "" World.empty).2.events = [openCall [0]] ∧
    (CreateAdapter drvOk "" "" none World.empty).1 = (some 0, none) ∧
    calls (CreateAdapter drvOk "" "" none World.empty).2.events =
      [createCall [0] [0] none] := by
  decide

/-- C8, amended: the empty string is not rejected. It encodes to the buffer that holds
only the terminator; `OpenAdapter` with the empty name invokes the open entry point once
with this buffer, `CreateAdapter` with an empty name or an empty tunnel type (the other
string encoding) invokes the create entry point with it, and an answer that is not zero
is returned as a fresh adapter with no error, as for every other string. -/
theorem empty_string_reaches_entry_point (drv : Driver) (w : World)
    (name tunnelType : String) (requestedGUID : Option GUID)
    (name16 tunnelType16 : List Nat)
    (hn : UTF16PtrFromString name = Except.ok name16)
    (ht : UTF16PtrFromString tunnelType = Except.ok tunnelType16) :
    UTF16PtrFromString "" = Except.ok [0] ∧
    calls (OpenAdapter drv "" w).2.events = calls w.events ++ [openCall [0]] ∧
    ((drv (calls w.events) (openCall [0])).r1 ≠ 0 →
      (OpenAdapter drv "" w).1 = (some w.heap.length, none)) ∧
    (∃ rest, calls (CreateAdapter drv "" tunnelType requestedGUID w).2.events =
      calls w.events ++ createCall [0] tunnelType16 requestedGUID :: rest) ∧
    (∃ rest, calls (CreateAdapter drv name "" requestedGUID w).2.events =
      calls w.events ++ createCall name16 [0] requestedGUID :: rest) ∧
    ((drv (calls w.events) (createCall [0] [0] requestedGUID)).r1 ≠ 0 →
      (CreateAdapter drv "" "" requestedGUID w).1 = (some w.heap.length, none)) := by
  have he := UTF16PtrFromString_empty
  refine ⟨he, ?_, ?_, ?_, ?_, ?_⟩
  · rw [OpenAdapter_of_ok drv "" w [0] he]
    split <;> simp [calls_append, calls]
  · intro h0
    rw [OpenAdapter_of_ok drv "" w [0] he]
    simp [h0]
  · exact CreateAdapter_calls drv "" tunnelType requestedGUID w [0] tunnelType16 he ht
  · exact CreateAdapter_calls drv name "" requestedGUID w name16 [0] hn he
  · intro h0
    rw [CreateAdapter_of_ok drv "" "" requestedGUID w [0] [0] he he]
    simp [h0]

/-- Witness of the amended C8: the empty name next to "wg0" and "Wintun". -/
theorem empty_string_reaches_entry_point_witness :
    (OpenAdapter drvOk "" World.empty).1 = (some World.empty.heap.length, none) :=
  (empty_string_reaches_entry_point drvOk World.empty "wg0" "Wintun" none
    [119, 103, 48, 0] [87, 105, 110, 116, 117, 110, 0] (by rfl) (by rfl)).2.2.1 (by decide)

/-! ## A second `Close` -/

/-- C10, refuted: the adapter opened as "wg0" is closed twice, on a driver whose close
entry point succeeds once and then fails with platform error code 6. The second `Close`
invokes the close entry point again with the same handle and returns that error. -/
theorem second_Close_not_noop :
    (run drvCloseOnce [Step.openAdapter "wg0", Step.close 0] World.empty).bind
        (fun w1 => (Close drvCloseOnce 0 w1).map
          (fun r => (r.1, callsOf Proc.WintunCloseAdapter w1.events,
            callsOf Proc.WintunCloseAdapter r.2.events))) =
      some (some (GoError.Errno 6), [closeCall 7], [closeCall 7, closeCall 7]) := by
  decide

/-- C10, amended: a second `Close` on an adapter that `Close` has already released is not
a no-op. It clears the (already cleared) finalizer and invokes the close entry point once
more with the same handle as its single argument, so that the two calls of `Close` make
two invocations; it returns the error with the platform error code exactly when this second
invocation returns zero, and no error otherwise. -/
theorem second_Close_invokes_again (drv : Driver) (p : Ptr) (w : World) (o : Object)
    (h : w.heap[p]? = some o) :
    ∃ err1 w1 err2 w2, Close drv p w = some (err1, w1) ∧ Close drv p w1 = some (err2, w2) ∧
      w2.events = w1.events ++
        [Event.setFinalizer p none, Event.call (closeCall o.adapter.handle)] ∧
      closeCount w2.events = closeCount w.events + 2 ∧
      (err2 = some (GoError.Errno (drv (calls w1.events) (closeCall o.adapter.handle)).err) ↔
        (drv (calls w1.events) (closeCall o.adapter.handle)).r1 = 0) ∧
      (err2 = none ↔ (drv (calls w1.events) (closeCall o.adapter.handle)).r1 ≠ 0) := by
  have hd : (setFin p none w.heap)[p]? = some ⟨o.adapter, none⟩ :=
    setFin_getElem?_same w.heap p o none h
  refine ⟨_, _, _, _, Close_of_obj drv p w o h,
    Close_of_obj drv p ⟨setFin p none w.heap, _⟩ ⟨o.adapter, none⟩ hd, rfl, ?_, ?_, ?_⟩
  · rw [closeCount_append_close, closeCount_append_close]
  · split <;> simp_all
  · split <;> simp_all

/-- Witness of the amended C10: the adapter opened as "wg0" is closed twice. -/
theorem second_Close_invokes_again_witness :
    ∃ err1 w1 err2 w2,
      Close drvCloseOnce 0 (OpenAdapter drvCloseOnce "wg0" World.empty).2 = some (err1, w1) ∧
      Close drvCloseOnce 0 w1 = some (err2, w2) ∧
      w2.events = w1.events ++ [Event.setFinalizer 0 none, Event.call (closeCall 7)] ∧
      closeCount w2.events =
        closeCount (OpenAdapter drvCloseOnce "wg0" World.empty).2.events + 2 ∧
      (err2 = some (GoError.Errno (drvCloseOnce (calls w1.events) (closeCall 7)).err) ↔
        (drvCloseOnce (calls w1.events) (closeCall 7)).r1 = 0) ∧
      (err2 = none ↔ (drvCloseOnce (calls w1.events) (closeCall 7)).r1 ≠ 0) :=
  second_Close_invokes_again drvCloseOnce 0 (OpenAdapter drvCloseOnce "wg0" World.empty).2
    ⟨⟨7⟩, some Finalizer.closeAdapter⟩ (by decide)

end Wintun
